import Mathlib

/-!
Shallow embedding of the Bazarr launcher (`bazarr/launcher.py` and the
argument surface of `bazarr/app/get_args.py`).  The supervisor loop is
single-threaded, so its poll tick (`check_status`), child-handling helpers
(`terminate_child`, `start_bazarr`), stop-file parsing
(`get_stop_status_code`), interrupt handler (`interrupt_handler`) and the
startup part of `main` are embedded as pure functions over an explicit
filesystem/process state, returning the list of side effects they perform
in order.
-/

namespace Bazarr

/-- Modelled from the spec: the clean-shutdown exit code `EXIT_NORMAL` from
`bazarr.literals`, a module not among the inspected sources; only the name
and role of the constant matter to the claims. -/
def EXIT_NORMAL : Int := 0

/-- Modelled from the spec: the forced-exit-after-repeated-interrupt code
`EXIT_INTERRUPT` from `bazarr.literals` (not among the inspected sources). -/
def EXIT_INTERRUPT : Int := -100

/-- Modelled from the spec: the preflight-failure code
`EXIT_PYTHON_UPGRADE_NEEDED` from `bazarr.literals` (not among the
inspected sources). -/
def EXIT_PYTHON_UPGRADE_NEEDED : Int := -1

/-! ### Python `int` parsing and `readline`, for the stop-file content -/

/-- The whitespace characters Python strips from both ends of the argument
of `int` (the ASCII subset relevant to text files). -/
def isPySpace (c : Char) : Bool :=
  c = ' ' || c = '\t' || c = '\n' || c = '\r' || c = '\x0b' || c = '\x0c'

/-- ASCII decimal digit test, as accepted by Python `int`. -/
def isPyDigit (c : Char) : Bool :=
  '0' ≤ c && c ≤ '9'

/-- Drop `isPySpace` characters from both ends of a character list. -/
def stripPySpaces (cs : List Char) : List Char :=
  ((cs.dropWhile isPySpace).reverse.dropWhile isPySpace).reverse

/-- Split a character list at every underscore; empty groups witness a
leading, trailing or doubled underscore, which Python `int` rejects. -/
def splitUnderscore : List Char → List (List Char)
  | [] => [[]]
  | c :: rest =>
    match splitUnderscore rest with
    | g :: gs => if c = '_' then [] :: g :: gs else (c :: g) :: gs
    | [] => [[c]]

/-- Value of a list of decimal digits, most significant first. -/
def digitsToNat (cs : List Char) : Nat :=
  cs.foldl (fun acc c => 10 * acc + (c.toNat - 48)) 0

/-- Python `int(s)` on a text line: strip surrounding whitespace, allow one
optional sign, then decimal digits in nonempty groups separated by single
underscores.  `none` where Python raises `ValueError`. -/
def pyParseInt (s : String) : Option Int :=
  let cs := stripPySpaces s.data
  let signRest : Int × List Char :=
    match cs with
    | '+' :: r => (1, r)
    | '-' :: r => (-1, r)
    | r => (1, r)
  let groups := splitUnderscore signRest.2
  if groups.all fun g => !g.isEmpty && g.all isPyDigit then
    some (signRest.1 * (digitsToNat groups.flatten : Int))
  else
    none

/-- `file.readline()` on the whole file content: the first line, up to and
including the first newline character. -/
def readlineAux : List Char → List Char
  | [] => []
  | c :: rest => if c = '\n' then [c] else c :: readlineAux rest

/-- String version of `readlineAux`. -/
def readline (s : String) : String :=
  ⟨readlineAux s.data⟩

/-- `get_stop_status_code` (launcher.py 112-124).  `readResult` is
`some content` when `open` succeeds and yields `content`, and `none` when
`open` raises any exception (missing file, permission error, ...).  A line
that `int` rejects, like a missing read, falls back to `EXIT_NORMAL`. -/
def get_stop_status_code (readResult : Option String) : Int :=
  match readResult with
  | none => EXIT_NORMAL
  | some content =>
    match pyParseInt (readline content) with
    | some n => n
    | none => EXIT_NORMAL

/-! ### Worker handle, sentinel filesystem and side-effect events -/

/-- One spawned worker subprocess: its PID and whether `poll()` would still
return `None` (the process is running). -/
structure ChildProcess where
  pid : Nat
  running : Bool
  deriving DecidableEq

/-- The sentinel part of the filesystem seen by one poll tick.
`stopFile`/`restartFile` are `some content` when the file exists.  The
`Fails` flags say whether `open`, respectively `os.remove`, raises on that
tick (permission errors, races, ...). -/
structure FS where
  stopFile : Option String
  restartFile : Option String
  stopReadFails : Bool
  stopRemoveFails : Bool
  restartRemoveFails : Bool
  deriving DecidableEq

/-- The side effects the launcher performs, in program order. -/
inductive Event where
  | printMsg (msg : String)
  | printTerminating (pid : Nat)
  | printStarting (pid : Nat)
  | printExited (code : Int)
  | removeStop
  | removeRestart
  | sendTerminate (pid : Nat)
  | waitExit (pid : Nat)
  | spawnProcess (pid : Nat)
  | exitProgram (code : Int)
  deriving DecidableEq

/-- `terminate_child` (launcher.py 104-109): print, send the termination
signal only when `poll()` is `None`, then wait unconditionally.  Returns
the reaped handle and the effects in order. -/
def terminate_child (cp : ChildProcess) : ChildProcess × List Event :=
  ({ cp with running := false },
    Event.printTerminating cp.pid ::
      ((if cp.running then [Event.sendTerminate cp.pid] else []) ++
        [Event.waitExit cp.pid]))

/-- The argument list `script` built by `start_bazarr` (launcher.py 98):
the Python executable, `-u`, the main script path, then `sys.argv[1:]`. -/
def start_bazarr_argv (pythonPath mainScript : String) (argv : List String) :
    List String :=
  pythonPath :: "-u" :: mainScript :: argv.tail

/-- `start_bazarr` (launcher.py 95-101): spawn the worker, then print the
status line with its PID.  `nextPid` is the PID the OS hands out. -/
def start_bazarr (nextPid : Nat) : ChildProcess × List Event :=
  ({ pid := nextPid, running := true },
    [Event.spawnProcess nextPid, Event.printStarting nextPid])

/-- `exit_program` (launcher.py 30-32): print the final status line, then
raise `SystemExit` with the status code, which ends the whole program. -/
def exit_program (code : Int) : List Event :=
  [Event.printExited code, Event.exitProgram code]

/-- The stop-file deletion attempt inside `check_status` (131-135): print,
try `os.remove`, and on any exception print the failure instead of
propagating it. -/
def removeStopAttempt (fs : FS) : FS × List Event :=
  if fs.stopRemoveFails then
    (fs,
      [Event.printMsg "Deleting stop file...",
        Event.printMsg "Unable to delete stop file."])
  else
    ({ fs with stopFile := none },
      [Event.printMsg "Deleting stop file...", Event.removeStop])

/-- The restart-file deletion attempt inside `check_status` (141-145). -/
def removeRestartAttempt (fs : FS) : FS × List Event :=
  if fs.restartRemoveFails then
    (fs,
      [Event.printMsg "Deleting restart file...",
        Event.printMsg "Unable to delete restart file."])
  else
    ({ fs with restartFile := none },
      [Event.printMsg "Deleting restart file...", Event.removeRestart])

/-- How one poll tick ends: the program exits with a status code (the
`SystemExit` of `exit_program` propagates out of the loop), or the loop
continues with a worker handle. -/
inductive CheckResult where
  | exited (code : Int)
  | continueWith (cp : ChildProcess)
  deriving DecidableEq

/-- Result of one poll tick: how it ended, the sentinel filesystem it
leaves behind, and the side effects it performed in order. -/
structure CheckOutcome where
  result : CheckResult
  fs : FS
  events : List Event
  deriving DecidableEq

/-- `check_status` (launcher.py 127-151), one poll tick.  The stop branch
runs first; its `finally` terminates the child and calls `exit_program`,
whose `SystemExit` leaves the function, so the restart branch is only
reached when no stop-file exists.  `nextPid` is the PID a respawned worker
would get. -/
def check_status (cp : ChildProcess) (fs : FS) (nextPid : Nat) :
    CheckOutcome :=
  if fs.stopFile.isSome then
    let code := get_stop_status_code
      (if fs.stopReadFails then none else fs.stopFile)
    let rm := removeStopAttempt fs
    let tc := terminate_child cp
    { result := .exited code
      fs := rm.1
      events := rm.2 ++ tc.2 ++ exit_program code }
  else if fs.restartFile.isSome then
    let rm := removeRestartAttempt fs
    let tc := terminate_child cp
    let sb := start_bazarr nextPid
    { result := .continueWith sb.1
      fs := rm.1
      events := rm.2 ++ tc.2 ++ Event.printMsg "Bazarr is restarting..." :: sb.2 }
  else
    { result := .continueWith cp, fs := fs, events := [] }

/-! ### Interrupt handler -/

/-- What one delivery of the interrupt signal does: the value of the
`interrupted` flag afterwards, the `SystemExit` code if one is raised, and
the lines printed. -/
structure HandlerOutcome where
  interrupted : Bool
  raisedExit : Option Int
  printed : List String
  deriving DecidableEq

/-- `interrupt_handler` (launcher.py 172-183).  `interrupted` is the shared
flag before this delivery; `workerRunning` is what `is_process_running`
reports for the child PID. -/
def interrupt_handler (interrupted workerRunning : Bool) : HandlerOutcome :=
  if !interrupted then
    { interrupted := true
      raisedExit := none
      printed := ["Handling keyboard interrupt..."] }
  else if !workerRunning then
    { interrupted := interrupted
      raisedExit := some EXIT_INTERRUPT
      printed := [] }
  else
    { interrupted := interrupted, raisedExit := none, printed := [] }

/-! ### Startup sequence of `main` -/

/-- The startup actions of `main` (launcher.py 186-214), named. -/
inductive StartupStep where
  | checkPythonVersion
  | installInterruptHandler
  | resolveRestartPath
  | resolveStopPath
  | setEnvStopFile
  | setEnvRestartFile
  | cleanupRestartFile
  | cleanupStopFile
  | spawnInitialWorker
  deriving DecidableEq

/-- The order in which `main` performs its startup actions before entering
the poll loop (launcher.py 186-214): version check, then
`signal.signal(SIGINT, ...)`, then path resolution, environment variables,
stale-file cleanup, and the initial spawn. -/
def mainStartupSequence : List StartupStep :=
  [.checkPythonVersion, .installInterruptHandler,
    .resolveRestartPath, .resolveStopPath,
    .setEnvStopFile, .setEnvRestartFile,
    .cleanupRestartFile, .cleanupStopFile, .spawnInitialWorker]

/-- The startup order as the specification words it: resolve paths, expose
them via the environment, delete stale sentinel files, spawn the initial
worker, and install the interrupt handler last.  Kept separate from
`mainStartupSequence` to compare the two. -/
def claimedStartupSequence : List StartupStep :=
  [.resolveRestartPath, .resolveStopPath,
    .setEnvStopFile, .setEnvRestartFile,
    .cleanupRestartFile, .cleanupStopFile, .spawnInitialWorker,
    .installInterruptHandler]

/-- What `os.remove` does on one stale sentinel file during startup. -/
inductive RemoveOutcome where
  | ok
  | fileNotFound
  | otherError
  deriving DecidableEq

/-- One stale-sentinel deletion in `main` (launcher.py 202-211):
`os.remove` inside `try ... except FileNotFoundError: pass`.  First
component: `Except.error` when the exception propagates out of `main`;
second component: the lines printed. -/
def startupCleanupRemove (r : RemoveOutcome) :
    Except RemoveOutcome Unit × List String :=
  match r with
  | .ok => (.ok (), [])
  | .fileNotFound => (.ok (), [])
  | .otherError => (.error .otherError, [])

/-- The command-line flags whose value the supervisor itself reads: `main`
consumes `args.config_dir`, which `-c`/`--config` sets
(get_args.py 50-51, launcher.py 197-198). -/
def supervisorConsumedFlags : List String :=
  ["-c", "--config"]

/-! ### The claims, settled -/

/-- Claim C1: a poll tick that observes a stop-file whose first line parses
as the decimal integer `N` reads `N` as the status code and exits the whole
program with exit code `N`. -/
theorem checkStatus_stop_exits_with_parsed_code
    (cp : ChildProcess) (fs : FS) (nextPid : Nat) (content : String) (N : Int)
    (hstop : fs.stopFile = some content)
    (hread : fs.stopReadFails = false)
    (hparse : pyParseInt (readline content) = some N) :
    (check_status cp fs nextPid).result = .exited N ∧
      Event.exitProgram N ∈ (check_status cp fs nextPid).events := by
  constructor
  · simp [check_status, hstop, hread, get_stop_status_code, hparse]
  · simp [check_status, hstop, hread, get_stop_status_code, hparse,
      exit_program]

/-- Witness for C1 at the scenario of the specification: stop-file content
`7` with a trailing newline. -/
theorem checkStatus_stop_exits_with_parsed_code_witness :
    (check_status ⟨100, true⟩ ⟨some "7\n", none, false, false, false⟩
        101).result = .exited 7 ∧
      Event.exitProgram 7 ∈
        (check_status ⟨100, true⟩ ⟨some "7\n", none, false, false, false⟩
          101).events :=
  checkStatus_stop_exits_with_parsed_code ⟨100, true⟩
    ⟨some "7\n", none, false, false, false⟩ 101 "7\n" 7 rfl rfl (by decide)

/-- Claim C2: when stop-file and restart-file exist on the same tick, the
stop request wins: the child is terminated, the program exits with the
stop-file code, and no new worker is spawned on that tick. -/
theorem checkStatus_stop_wins_over_restart
    (cp : ChildProcess) (fs : FS) (nextPid : Nat) (content : String) (N : Int)
    (hstop : fs.stopFile = some content)
    (_hrestart : fs.restartFile.isSome = true)
    (hread : fs.stopReadFails = false)
    (hparse : pyParseInt (readline content) = some N) :
    (check_status cp fs nextPid).result = .exited N ∧
      Event.waitExit cp.pid ∈ (check_status cp fs nextPid).events ∧
      ∀ p, Event.spawnProcess p ∉ (check_status cp fs nextPid).events := by
  refine ⟨?_, ?_, ?_⟩
  · simp [check_status, hstop, hread, get_stop_status_code, hparse]
  · simp [check_status, hstop, hread, terminate_child]
  · intro p
    cases hrm : fs.stopRemoveFails <;> cases hrun : cp.running <;>
      simp [check_status, hstop, hread, removeStopAttempt, hrm,
        terminate_child, hrun, exit_program]

/-- Witness for C2: both sentinel files present, stop content `7`. -/
theorem checkStatus_stop_wins_over_restart_witness :
    (check_status ⟨100, true⟩ ⟨some "7\n", some "", false, false, false⟩
        101).result = .exited 7 ∧
      Event.waitExit 100 ∈
        (check_status ⟨100, true⟩ ⟨some "7\n", some "", false, false, false⟩
          101).events ∧
      ∀ p, Event.spawnProcess p ∉
        (check_status ⟨100, true⟩ ⟨some "7\n", some "", false, false, false⟩
          101).events :=
  checkStatus_stop_wins_over_restart ⟨100, true⟩
    ⟨some "7\n", some "", false, false, false⟩ 101 "7\n" 7 rfl rfl rfl
    (by decide)

/-- Claim C3: a restart tick (restart-file present, no stop-file) first
terminates and reaps the current worker and only afterwards spawns the
replacement: the wait on the old PID precedes the spawn in the effect
order, and no spawn happens before it. -/
theorem checkStatus_restart_waits_before_spawn
    (cp : ChildProcess) (fs : FS) (nextPid : Nat)
    (hstop : fs.stopFile = none)
    (hrestart : fs.restartFile.isSome = true) :
    (check_status cp fs nextPid).result = .continueWith ⟨nextPid, true⟩ ∧
      (terminate_child cp).1.running = false ∧
      ∃ l₁ l₂, (check_status cp fs nextPid).events
          = l₁ ++ Event.waitExit cp.pid :: l₂ ∧
        Event.spawnProcess nextPid ∈ l₂ ∧
        ∀ p, Event.spawnProcess p ∉ l₁ := by
  refine ⟨?_, rfl, ?_⟩
  · simp [check_status, hstop, hrestart, start_bazarr]
  · cases hrm : fs.restartRemoveFails <;> cases hrun : cp.running
    case false.false =>
      refine ⟨[Event.printMsg "Deleting restart file...", Event.removeRestart,
        Event.printTerminating cp.pid],
        [Event.printMsg "Bazarr is restarting...", Event.spawnProcess nextPid,
          Event.printStarting nextPid], ?_, by simp, by simp⟩
      simp [check_status, hstop, hrestart, removeRestartAttempt, hrm,
        terminate_child, hrun, start_bazarr]
    case false.true =>
      refine ⟨[Event.printMsg "Deleting restart file...", Event.removeRestart,
        Event.printTerminating cp.pid, Event.sendTerminate cp.pid],
        [Event.printMsg "Bazarr is restarting...", Event.spawnProcess nextPid,
          Event.printStarting nextPid], ?_, by simp, by simp⟩
      simp [check_status, hstop, hrestart, removeRestartAttempt, hrm,
        terminate_child, hrun, start_bazarr]
    case true.false =>
      refine ⟨[Event.printMsg "Deleting restart file...",
        Event.printMsg "Unable to delete restart file.",
        Event.printTerminating cp.pid],
        [Event.printMsg "Bazarr is restarting...", Event.spawnProcess nextPid,
          Event.printStarting nextPid], ?_, by simp, by simp⟩
      simp [check_status, hstop, hrestart, removeRestartAttempt, hrm,
        terminate_child, hrun, start_bazarr]
    case true.true =>
      refine ⟨[Event.printMsg "Deleting restart file...",
        Event.printMsg "Unable to delete restart file.",
        Event.printTerminating cp.pid, Event.sendTerminate cp.pid],
        [Event.printMsg "Bazarr is restarting...", Event.spawnProcess nextPid,
          Event.printStarting nextPid], ?_, by simp, by simp⟩
      simp [check_status, hstop, hrestart, removeRestartAttempt, hrm,
        terminate_child, hrun, start_bazarr]

/-- Witness for C3: a restart tick on a running worker with PID 100. -/
theorem checkStatus_restart_waits_before_spawn_witness :
    (check_status ⟨100, true⟩ ⟨none, some "", false, false, false⟩
        101).result = .continueWith ⟨101, true⟩ ∧
      (terminate_child ⟨100, true⟩).1.running = false ∧
      ∃ l₁ l₂, (check_status ⟨100, true⟩ ⟨none, some "", false, false, false⟩
          101).events = l₁ ++ Event.waitExit 100 :: l₂ ∧
        Event.spawnProcess 101 ∈ l₂ ∧
        ∀ p, Event.spawnProcess p ∉ l₁ :=
  checkStatus_restart_waits_before_spawn ⟨100, true⟩
    ⟨none, some "", false, false, false⟩ 101 rfl rfl

/-- Claim C4: the interrupt handler is a two-state escalation.  A delivery
with the flag still false sets it, prints the acknowledgement and raises no
exit; a delivery with the flag set force-exits with `EXIT_INTERRUPT` when
the worker is confirmed not running and is swallowed while it still runs;
and no delivery ever resets the flag to false. -/
theorem interruptHandler_two_state_escalation :
    (∀ r : Bool, interrupt_handler false r
        = ⟨true, none, ["Handling keyboard interrupt..."]⟩) ∧
      interrupt_handler true false = ⟨true, some EXIT_INTERRUPT, []⟩ ∧
      interrupt_handler true true = ⟨true, none, []⟩ ∧
      ∀ f r : Bool, (interrupt_handler f r).interrupted = true := by
  refine ⟨?_, rfl, rfl, ?_⟩ <;> decide


/-- Claim C5 counterexample: during the startup stale-file cleanup, a
deletion failure other than a missing file propagates out of `main` (fatal)
and nothing is logged, so a deletion failure there is neither logged nor
harmless. -/
theorem startup_cleanup_error_fatal_unlogged :
    (startupCleanupRemove .otherError).1 = Except.error .otherError ∧
      (startupCleanupRemove .otherError).2 = [] :=
  ⟨rfl, rfl⟩

/-- Claim C5 (amended): on a poll tick, failure to delete a sentinel file
is logged and never fatal and does not prevent the stop or restart action,
with the deletion attempt made before the termination side effect; the
startup cleanup, by contrast, silently swallows only a missing file. -/
theorem sentinel_delete_failure_nonfatal_on_tick
    (cp : ChildProcess) (fs fs2 : FS) (nextPid : Nat) (content : String)
    (hstop : fs.stopFile = some content)
    (hread : fs.stopReadFails = false)
    (hsfail : fs.stopRemoveFails = true)
    (h2stop : fs2.stopFile = none)
    (h2restart : fs2.restartFile.isSome = true)
    (h2fail : fs2.restartRemoveFails = true) :
    (∃ rest, (check_status cp fs nextPid).events
        = Event.printMsg "Deleting stop file..." ::
          Event.printMsg "Unable to delete stop file." ::
          Event.printTerminating cp.pid :: rest ∧
        Event.exitProgram (get_stop_status_code (some content)) ∈ rest) ∧
      (∃ rest, (check_status cp fs2 nextPid).events
        = Event.printMsg "Deleting restart file..." ::
          Event.printMsg "Unable to delete restart file." ::
          Event.printTerminating cp.pid :: rest ∧
        Event.spawnProcess nextPid ∈ rest) ∧
      startupCleanupRemove .fileNotFound = (.ok (), []) ∧
      startupCleanupRemove .ok = (.ok (), []) := by
  refine ⟨?_, ?_, rfl, rfl⟩
  · cases hrun : cp.running
    case false =>
      refine ⟨Event.waitExit cp.pid ::
        exit_program (get_stop_status_code (some content)), ?_,
        by simp [exit_program]⟩
      simp [check_status, hstop, hread, removeStopAttempt, hsfail,
        terminate_child, hrun, exit_program]
    case true =>
      refine ⟨Event.sendTerminate cp.pid :: Event.waitExit cp.pid ::
        exit_program (get_stop_status_code (some content)), ?_,
        by simp [exit_program]⟩
      simp [check_status, hstop, hread, removeStopAttempt, hsfail,
        terminate_child, hrun, exit_program]
  · cases hrun : cp.running
    case false =>
      refine ⟨[Event.waitExit cp.pid, Event.printMsg "Bazarr is restarting...",
        Event.spawnProcess nextPid, Event.printStarting nextPid], ?_, by simp⟩
      simp [check_status, h2stop, h2restart, removeRestartAttempt, h2fail,
        terminate_child, hrun, start_bazarr]
    case true =>
      refine ⟨[Event.sendTerminate cp.pid, Event.waitExit cp.pid,
        Event.printMsg "Bazarr is restarting...",
        Event.spawnProcess nextPid, Event.printStarting nextPid], ?_, by simp⟩
      simp [check_status, h2stop, h2restart, removeRestartAttempt, h2fail,
        terminate_child, hrun, start_bazarr]

/-- Witness for the amended C5: a stop tick whose deletion fails, and a
restart tick whose deletion fails, both on a running worker with PID 100. -/
theorem sentinel_delete_failure_nonfatal_on_tick_witness :
    Event.printMsg "Unable to delete stop file."
        ∈ (check_status ⟨100, true⟩ ⟨some "7\n", none, false, true, false⟩
          101).events ∧
      Event.spawnProcess 101
        ∈ (check_status ⟨100, true⟩ ⟨none, some "", false, false, true⟩
          101).events := by
  obtain ⟨⟨r1, h1, _⟩, ⟨r2, h3, h4⟩, -, -⟩ :=
    sentinel_delete_failure_nonfatal_on_tick ⟨100, true⟩
      ⟨some "7\n", none, false, true, false⟩ ⟨none, some "", false, false, true⟩
      101 "7\n" rfl rfl rfl rfl rfl rfl
  refine ⟨by rw [h1]; simp, by rw [h3]; simp [h4]⟩

/-- Claim C6: a stop tick whose stop-file content is empty or does not
parse as an integer, or whose stop-file cannot be read at all, exits the
program with the `EXIT_NORMAL` code. -/
theorem malformed_stop_exits_normal
    (cp : ChildProcess) (fs : FS) (nextPid : Nat)
    (hstop : fs.stopFile.isSome = true)
    (h : fs.stopReadFails = true ∨
      ∃ content, fs.stopFile = some content ∧
        pyParseInt (readline content) = none) :
    (check_status cp fs nextPid).result = .exited EXIT_NORMAL ∧
      Event.exitProgram EXIT_NORMAL ∈ (check_status cp fs nextPid).events := by
  have hcode : get_stop_status_code
      (if fs.stopReadFails then none else fs.stopFile) = EXIT_NORMAL := by
    rcases h with h | ⟨c, hc, hp⟩
    · simp [h, get_stop_status_code]
    · cases hr : fs.stopReadFails <;>
        simp [hr, get_stop_status_code, hc, hp]
  constructor
  · simp [check_status, hstop, hcode]
  · simp [check_status, hstop, hcode, exit_program]

/-- Witness for C6: an empty stop-file. -/
theorem malformed_stop_exits_normal_witness :
    (check_status ⟨100, true⟩ ⟨some "", none, false, false, false⟩
        101).result = .exited EXIT_NORMAL ∧
      Event.exitProgram EXIT_NORMAL ∈
        (check_status ⟨100, true⟩ ⟨some "", none, false, false, false⟩
          101).events :=
  malformed_stop_exits_normal ⟨100, true⟩
    ⟨some "", none, false, false, false⟩ 101 rfl
    (Or.inr ⟨"", rfl, by decide⟩)

/-- Claim C7 counterexample: `main` installs the interrupt handler before
it resolves the sentinel paths, sets the environment, cleans up stale
files and spawns the worker — so not last, and the observed startup order
differs from the claimed one. -/
theorem startup_handler_installed_first_not_last :
    mainStartupSequence.indexOf .installInterruptHandler
        < mainStartupSequence.indexOf .spawnInitialWorker ∧
      StartupStep.installInterruptHandler ∈ mainStartupSequence ∧
      StartupStep.spawnInitialWorker ∈ mainStartupSequence ∧
      mainStartupSequence ≠ claimedStartupSequence := by
  decide

/-- Claim C7 (amended): startup resolves the two sentinel paths, then sets
the two environment variables, then deletes stale sentinel files, then
spawns the initial worker, in that relative order — but the interrupt
handler is installed before all of these, directly after the version
check, not last. -/
theorem startup_sequence_order :
    mainStartupSequence.indexOf .resolveRestartPath
        < mainStartupSequence.indexOf .setEnvStopFile ∧
      mainStartupSequence.indexOf .setEnvRestartFile
        < mainStartupSequence.indexOf .cleanupRestartFile ∧
      mainStartupSequence.indexOf .cleanupStopFile
        < mainStartupSequence.indexOf .spawnInitialWorker ∧
      mainStartupSequence.indexOf .installInterruptHandler
        < mainStartupSequence.indexOf .resolveRestartPath ∧
      mainStartupSequence.indexOf .checkPythonVersion
        < mainStartupSequence.indexOf .installInterruptHandler := by
  decide

/-- Claim C8 counterexample: with command line `bazarr -c /tmp/x`, the
supervisor consumes `-c` (it reads `args.config_dir` from it), yet `-c`
and its value still appear in the worker argument list it builds. -/
theorem consumed_config_flag_reaches_worker :
    "-c" ∈ supervisorConsumedFlags ∧
      "-c" ∈ start_bazarr_argv "python3" "main.py" ["bazarr", "-c", "/tmp/x"] ∧
      "/tmp/x" ∈ start_bazarr_argv "python3" "main.py"
        ["bazarr", "-c", "/tmp/x"] := by
  decide

/-- Claim C8 (amended): every spawn passes all supervisor command-line
arguments after the program name through to the worker verbatim, as a
suffix of the worker command line — including the flags the supervisor
itself consumes. -/
theorem worker_argv_passes_all_args (py ms : String) (argv : List String) :
    start_bazarr_argv py ms argv = [py, "-u", ms] ++ argv.tail ∧
      List.IsSuffix argv.tail (start_bazarr_argv py ms argv) :=
  ⟨rfl, ⟨[py, "-u", ms], rfl⟩⟩

/-- Claim C9: `terminate_child` always reaps (the returned handle is no
longer running and the wait is unconditional), sends the termination signal
exactly when the child was still running, and on an already-exited handle
performs nothing beyond the print and the wait. -/
theorem terminate_child_signal_iff_running (cp : ChildProcess) :
    (terminate_child cp).1 = ⟨cp.pid, false⟩ ∧
      (Event.sendTerminate cp.pid ∈ (terminate_child cp).2
        ↔ cp.running = true) ∧
      Event.waitExit cp.pid ∈ (terminate_child cp).2 ∧
      (terminate_child ⟨cp.pid, false⟩).2
        = [Event.printTerminating cp.pid, Event.waitExit cp.pid] := by
  obtain ⟨pid, running⟩ := cp
  cases running <;> simp [terminate_child]

/-- Claim C10: a poll tick that sees neither sentinel file returns the very
handle it was given, leaves the filesystem untouched and performs no side
effect at all. -/
theorem checkStatus_noop_without_sentinels
    (cp : ChildProcess) (fs : FS) (nextPid : Nat)
    (hstop : fs.stopFile = none) (hrestart : fs.restartFile = none) :
    check_status cp fs nextPid = ⟨.continueWith cp, fs, []⟩ := by
  simp [check_status, hstop, hrestart]

/-- Witness for C10: no sentinel files, worker with PID 100. -/
theorem checkStatus_noop_without_sentinels_witness :
    check_status ⟨100, true⟩ ⟨none, none, false, false, false⟩ 101
      = ⟨.continueWith ⟨100, true⟩, ⟨none, none, false, false, false⟩, []⟩ :=
  checkStatus_noop_without_sentinels ⟨100, true⟩
    ⟨none, none, false, false, false⟩ 101 rfl rfl

end Bazarr
